import Mathlib

/-
Verification development for the photos-widget repository: a shallow embedding of
the widget rotation state model (widget-storage / photo-widget), the acquisition
workflow of the photo-picker screen (oauth.tsx picker screen), the rotation
triggers, the settings interval handler and the local-photo merge, together with
theorems settling the frozen specification claims.
-/

namespace PhotosWidget

/-- Display mode of the widget (widget-storage: type DisplayMode = "single" | "slideshow"). -/
inductive DisplayMode
  | single
  | slideshow
deriving DecidableEq

/-- One selected image (widget-storage: interface WidgetPhoto). Optional fields are
modelled with Option. -/
structure WidgetPhoto where
  id : String
  url : String
  localPath : Option String
  baseUrl : Option String
  width : Int
  height : Int
deriving DecidableEq

/-- Persisted widget record (widget-storage: interface WidgetData). The
rotationIntervalSeconds field is the optional field read by the settings screen
(settings.tsx line 470) and by registerBackgroundFetch (background-fetch.ts line 200);
records written by saveWidgetPhotos carry no such key, modelled as none. -/
structure WidgetData where
  photos : List WidgetPhoto
  currentIndex : Int
  displayMode : DisplayMode
  lastUpdated : Int
  rotationIntervalSeconds : Option Int
  albumId : Option String
deriving DecidableEq

/-- Result of a rotation-model operation: the durable store contents afterwards and the
number of durable writes (saveWidgetData calls) the operation performed. -/
structure RotResult where
  store : Option WidgetData
  writes : Nat
deriving DecidableEq

/-- Embeds updateCurrentPhotoIndex (widget-storage, src/unnamed/part_001 lines 567-579):
returns silently when the store is absent, otherwise sets currentIndex := index and
lastUpdated := Date.now() and performs one durable write. The parameter now stands for
Date.now(). -/
def updateCurrentPhotoIndex (store : Option WidgetData) (now : Int) (index : Int) :
    RotResult :=
  match store with
  | none => { store := none, writes := 0 }
  | some wd =>
      { store := some { wd with currentIndex := index, lastUpdated := now }, writes := 1 }

/-- Embeds rotateToNextPhoto (widget-storage, src/unnamed/part_001 lines 584-590): returns
silently when the store is absent or the photo list is empty; otherwise computes
(currentIndex + 1) % photos.length — JavaScript remainder, i.e. Int.tmod — and delegates
to updateCurrentPhotoIndex. -/
def rotateToNextPhoto (store : Option WidgetData) (now : Int) : RotResult :=
  match store with
  | none => { store := none, writes := 0 }
  | some wd =>
      if wd.photos.length = 0 then { store := some wd, writes := 0 }
      else
        updateCurrentPhotoIndex (some wd) now
          ((wd.currentIndex + 1).tmod wd.photos.length)

/-- Embeds the widget-side rotatePhoto (src/widgets/photo-widget.tsx lines 65-72): a full
no-op when the store is absent or photos.length ≤ 1; otherwise advances the index by
(currentIndex + 1) % photos.length, stamps lastUpdated := Date.now(), and writes once. -/
def rotatePhoto (store : Option WidgetData) (now : Int) : RotResult :=
  match store with
  | none => { store := none, writes := 0 }
  | some wd =>
      if wd.photos.length ≤ 1 then { store := some wd, writes := 0 }
      else
        { store := some { wd with
            currentIndex := (wd.currentIndex + 1).tmod wd.photos.length,
            lastUpdated := now },
          writes := 1 }

/-- Embeds saveWidgetPhotos (widget-storage, src/unnamed/part_001 lines 519-536): builds the
whole replacement record with currentIndex := 0 and lastUpdated := Date.now(); the written
object has no rotationIntervalSeconds key. -/
def saveWidgetPhotos (photos : List WidgetPhoto) (displayMode : DisplayMode)
    (albumId : Option String) (now : Int) : WidgetData :=
  { photos := photos
    currentIndex := 0
    displayMode := displayMode
    lastUpdated := now
    rotationIntervalSeconds := none
    albumId := albumId }

/-- Iterates rotateToNextPhoto once per timestamp in ts (consecutive trigger firings). -/
def advanceTimes : Option WidgetData → List Int → Option WidgetData
  | s, [] => s
  | s, t :: ts => advanceTimes (rotateToNextPhoto s t).store ts

/-- JavaScript array indexing photos[i]: undefined (none) outside [0, length). -/
def jsIndex (photos : List WidgetPhoto) (i : Int) : Option WidgetPhoto :=
  if 0 ≤ i then photos.get? i.toNat else none

/-- Embeds the display-photo selection expression shared by renderPhotoWidget
(src/widgets/photo-widget.tsx lines 137-139) and renderWidgetForUpdate (lines 272-274):
photos[currentIndex] with fallback photos[0]. A WidgetPhoto object is always truthy in
JavaScript, so the fallback fires exactly when the index is out of range. -/
def chooseCurrentPhoto (wd : WidgetData) : Option WidgetPhoto :=
  match jsIndex wd.photos wd.currentIndex with
  | some p => some p
  | none => wd.photos.get? 0

/-- Observable result of the widget render step: the empty placeholder ("Tap to add
photos"), a rendered photo, the load-failure fallback view ("Unable to load"), or a
thrown TypeError (reading a property of undefined). -/
inductive RenderOutput
  | emptyPlaceholder
  | photoView (p : WidgetPhoto)
  | loadFailure
  | crash
deriving DecidableEq

/-- Embeds renderWidgetForUpdate (src/widgets/photo-widget.tsx lines 238-333): absent data
or an empty photo list renders the placeholder; otherwise the selected photo is rendered
when its image is readable (oracle imageLoads), the failure view otherwise; were the
selection expression to yield undefined, reading its properties would throw (crash). -/
def renderWidgetForUpdate (imageLoads : WidgetPhoto → Bool) (store : Option WidgetData) :
    RenderOutput :=
  match store with
  | none => .emptyPlaceholder
  | some wd =>
      if wd.photos.length = 0 then .emptyPlaceholder
      else
        match chooseCurrentPhoto wd with
        | some p => if imageLoads p then .photoView p else .loadFailure
        | none => .crash

/-- Error taxonomy of spec section 7. -/
inductive ErrKind
  | authError
  | transportError
  | timeoutError
  | emptySelectionError
  | persistenceError
  | validationError
  | unknown
deriving DecidableEq

/-- Classification of the picker screen's error-site messages (src/app/oauth.tsx) by the
spec section 7 taxonomy: the post-poll-loop message marks the poll loop ending without
readiness, and the two fetch-phase messages both fall under EmptySelectionError, defined
there as "zero items selected or zero downloads succeeded". -/
def classifyPickerError (msg : String) : ErrKind :=
  if msg = "No photos were selected or the session timed out" then .timeoutError
  else if msg = "No photos were selected" then .emptySelectionError
  else if msg = "Failed to download photos" then .emptySelectionError
  else .unknown

/-- Embeds the PickerState union of src/app/oauth.tsx lines 82-91. -/
inductive PickerState
  | idle
  | creatingSession
  | pickerOpen
  | polling
  | fetchingPhotos
  | downloading
  | saving
  | done
  | error
deriving DecidableEq

/-- Selected media item as consumed by the download loop: id and effective base url. -/
structure MediaItem where
  id : String
  baseUrl : String
deriving DecidableEq

/-- Local cache path used for a downloaded item (src/app/oauth.tsx line 206), relative to
the cache directory. -/
def cachePath (itemId : String) : String :=
  "widget-photos/" ++ itemId ++ ".jpg"

/-- WidgetPhoto record pushed for a successfully downloaded item (src/app/oauth.tsx lines
235-242): url and localPath both hold the cache path, dimensions are fixed 512. -/
def mkWidgetPhoto (p : MediaItem) : WidgetPhoto :=
  { id := p.id
    url := cachePath p.id
    localPath := some (cachePath p.id)
    baseUrl := some p.baseUrl
    width := 512
    height := 512 }

/-- Embeds the sequential download loop (src/app/oauth.tsx lines 196-251): every item is
attempted in order; a failed item (thrown error or non-200 status, oracle ok false) is
logged and skipped and the loop continues; successes are pushed in loop order. Returns
the pushed photos and the number of items attempted. -/
def downloadRun (ok : MediaItem → Bool) : List MediaItem → List WidgetPhoto × Nat
  | [] => ([], 0)
  | p :: rest =>
      let r := downloadRun ok rest
      if ok p then (mkWidgetPhoto p :: r.1, r.2 + 1) else (r.1, r.2 + 1)

/-- Collaborator behaviour during one fetchSelectedPhotos run: the outcome of
fetchPickerMediaItems (error value = the thrown message), per-item download success,
and whether saveWidgetPhotos and deletePickerSession resolve or throw. -/
structure FetchEnv where
  mediaItems : Except String (List MediaItem)
  downloadOk : MediaItem → Bool
  saveOk : Bool
  saveErrMsg : String
  deleteOk : Bool
  deleteErrMsg : String

/-- Observable outcome of fetchSelectedPhotos: final screen state, last error message,
number of saveWidgetPhotos invocations, the photo list durably committed to the widget
store (none when no durable replace happened), and number of deletePickerSession
invocations. -/
structure FetchOutcome where
  finalState : PickerState
  errorMsg : Option String
  saveCalls : Nat
  committed : Option (List WidgetPhoto)
  deleteCalls : Nat
deriving DecidableEq

/-- Embeds fetchSelectedPhotos (src/app/oauth.tsx lines 176-289). Control flow of the
source: a fetchPickerMediaItems throw lands in the catch (state error, cleanup skipped);
zero items sets the "No photos were selected" error and then runs cleanup; otherwise the
download loop runs over all items; zero successes sets the "Failed to download photos"
error and then runs cleanup; otherwise saveWidgetPhotos is invoked (a throw lands in the
catch with cleanup skipped), the state becomes done, and cleanup runs (a cleanup throw
lands in the catch and downgrades the state to error with the thrown message). -/
def fetchSelectedPhotos (env : FetchEnv) : FetchOutcome :=
  match env.mediaItems with
  | .error msg =>
      { finalState := .error, errorMsg := some msg, saveCalls := 0
        committed := none, deleteCalls := 0 }
  | .ok photos =>
      if photos.length > 0 then
        let widgetPhotos := (downloadRun env.downloadOk photos).1
        if widgetPhotos.length > 0 then
          if env.saveOk then
            if env.deleteOk then
              { finalState := .done, errorMsg := none, saveCalls := 1
                committed := some widgetPhotos, deleteCalls := 1 }
            else
              { finalState := .error, errorMsg := some env.deleteErrMsg, saveCalls := 1
                committed := some widgetPhotos, deleteCalls := 1 }
          else
            { finalState := .error, errorMsg := some env.saveErrMsg, saveCalls := 1
              committed := none, deleteCalls := 0 }
        else
          if env.deleteOk then
            { finalState := .error, errorMsg := some "Failed to download photos"
              saveCalls := 0, committed := none, deleteCalls := 1 }
          else
            { finalState := .error, errorMsg := some env.deleteErrMsg
              saveCalls := 0, committed := none, deleteCalls := 1 }
      else
        if env.deleteOk then
          { finalState := .error, errorMsg := some "No photos were selected"
            saveCalls := 0, committed := none, deleteCalls := 1 }
        else
          { finalState := .error, errorMsg := some env.deleteErrMsg
            saveCalls := 0, committed := none, deleteCalls := 1 }

/-- Effect of a fetchSelectedPhotos run on the widget store: the previous record is
replaced — wholesale, with currentIndex reset to 0 — only when saveWidgetPhotos was
invoked and resolved, and is left untouched otherwise. The user-chosen display mode is
passed through as in src/app/oauth.tsx line 257. -/
def storeAfterFetch (prev : Option WidgetData) (env : FetchEnv) (mode : DisplayMode)
    (now : Int) : Option WidgetData :=
  match (fetchSelectedPhotos env).committed with
  | some ps => some (saveWidgetPhotos ps mode none now)
  | none => prev

/-- Observable outcome of pollForSelection: the number of getPickerSession calls, the
total milliseconds slept, whether fetchSelectedPhotos was entered (the fetching-photos
step), the error message of the post-loop code if it ran, and the number of
deletePickerSession invocations made by the poll routine itself. -/
structure PollOutcome where
  statusCalls : Nat
  sleptMs : Nat
  reachedFetching : Bool
  errorMsg : Option String
  deleteCalls : Nat
deriving DecidableEq

/-- Message set by the post-loop code of pollForSelection (src/app/oauth.tsx line 165). -/
def pollTimeoutMsg : String := "No photos were selected or the session timed out"

/-- Loop body of pollForSelection (src/app/oauth.tsx lines 140-173), with remaining the
count of loop iterations still allowed (maxAttempts minus attempts so far) and calls and
slept the totals accumulated so far. Each iteration issues one getPickerSession call: a
throw breaks out to the post-loop error-and-cleanup code; readiness enters
fetchSelectedPhotos and returns; otherwise the loop sleeps 5000 ms and retries.
Exhaustion reaches the same post-loop error-and-cleanup code, which deletes the session
exactly once. -/
def pollAux (status : Nat → Except String Bool) (calls slept : Nat) : Nat → PollOutcome
  | 0 =>
      { statusCalls := calls, sleptMs := slept, reachedFetching := false
        errorMsg := some pollTimeoutMsg, deleteCalls := 1 }
  | remaining + 1 =>
      match status calls with
      | .error _ =>
          { statusCalls := calls + 1, sleptMs := slept, reachedFetching := false
            errorMsg := some pollTimeoutMsg, deleteCalls := 1 }
      | .ok true =>
          { statusCalls := calls + 1, sleptMs := slept, reachedFetching := true
            errorMsg := none, deleteCalls := 0 }
      | .ok false => pollAux status (calls + 1) (slept + 5000) remaining

/-- Embeds pollForSelection (src/app/oauth.tsx lines 134-174) with maxAttempts = 60 and
attempts starting at 0; status k is the k-th getPickerSession result (0-based), where
ok b reports the session's mediaItemsSet flag and error models a thrown request. -/
def pollForSelection (status : Nat → Except String Bool) : PollOutcome :=
  pollAux status 0 0 60

/-- Collaborator behaviour for a whole post-pickerOpen run: the poll responses plus the
fetch-phase environment. -/
structure WorkflowEnv where
  status : Nat → Except String Bool
  fetch : FetchEnv

/-- Observable outcome of the workflow from the polling step onwards. -/
structure WorkflowOutcome where
  finalState : PickerState
  errorMsg : Option String
  saveCalls : Nat
  deleteCalls : Nat
deriving DecidableEq

/-- Embeds the picker screen's behaviour from the moment the polling step starts (the
state "polling", entered after a session was created and the browser was dismissed):
pollForSelection runs, and when readiness is observed fetchSelectedPhotos runs; the
deletePickerSession counts of both routines are combined. -/
def runAfterPickerOpen (env : WorkflowEnv) : WorkflowOutcome :=
  let p := pollForSelection env.status
  if p.reachedFetching then
    let f := fetchSelectedPhotos env.fetch
    { finalState := f.finalState, errorMsg := f.errorMsg
      saveCalls := f.saveCalls, deleteCalls := p.deleteCalls + f.deleteCalls }
  else
    { finalState := .error, errorMsg := p.errorMsg
      saveCalls := 0, deleteCalls := p.deleteCalls }

/-- Per-firing effect of a rotation trigger: how many advance calls and how many
re-render requests it performed. -/
structure TriggerEffect where
  advanceCalls : Nat
  renderCalls : Nat
deriving DecidableEq

/-- Embeds the WIDGET_CLICK branch of widgetTaskHandler (src/widgets/photo-widget.tsx
lines 601-615): both the ROTATE_PHOTO branch and the unknown-click-action branch call
rotatePhoto once and then render once. -/
def widgetClickTrigger (store : Option WidgetData) (now : Int) (clickAction : String) :
    Option WidgetData × TriggerEffect :=
  if clickAction = "ROTATE_PHOTO" then
    ((rotatePhoto store now).store, { advanceCalls := 1, renderCalls := 1 })
  else
    ((rotatePhoto store now).store, { advanceCalls := 1, renderCalls := 1 })

/-- Embeds the foreground WIDGET_UPDATE_TASK body (src/unnamed/part_002 lines 21-52):
absent data or no photos returns with no advance and no render; slideshow mode with more
than one photo performs one rotateToNextPhoto and then one render; any other state
performs a render only. -/
def widgetUpdateTask (store : Option WidgetData) (now : Int) :
    Option WidgetData × TriggerEffect :=
  match store with
  | none => (none, { advanceCalls := 0, renderCalls := 0 })
  | some wd =>
      if wd.photos.length = 0 then (some wd, { advanceCalls := 0, renderCalls := 0 })
      else if wd.displayMode = .slideshow ∧ 1 < wd.photos.length then
        ((rotateToNextPhoto (some wd) now).store, { advanceCalls := 1, renderCalls := 1 })
      else (some wd, { advanceCalls := 0, renderCalls := 1 })

/-- Background-fetch task result values (expo BackgroundFetchResult). -/
inductive BgResult
  | noData
  | newData
  | failed
deriving DecidableEq

/-- Embeds the BACKGROUND_FETCH_TASK body (src/services/background-fetch.ts lines
155-179): absent data or no photos returns NoData with no advance and no render;
slideshow mode with more than one photo performs one rotateToNextPhoto and one render and
returns NewData; any other state returns NoData with no advance and no render. -/
def backgroundFetchTask (store : Option WidgetData) (now : Int) :
    Option WidgetData × TriggerEffect × BgResult :=
  match store with
  | none => (none, { advanceCalls := 0, renderCalls := 0 }, .noData)
  | some wd =>
      if wd.photos.length = 0 then
        (some wd, { advanceCalls := 0, renderCalls := 0 }, .noData)
      else if wd.displayMode = .slideshow ∧ 1 < wd.photos.length then
        ((rotateToNextPhoto (some wd) now).store,
          { advanceCalls := 1, renderCalls := 1 }, .newData)
      else (some wd, { advanceCalls := 0, renderCalls := 0 }, .noData)

/-- Modelled from the spec: the widget-storage function updateRotationInterval, imported
by src/app/(tabs)/settings.tsx (line 407) but whose definition is not among the provided
source files. Spec section 4.2: "setInterval(seconds: integer ≥ 5) -> void: updates
rotationIntervalSeconds only". -/
def updateRotationInterval (store : Option WidgetData) (seconds : Int) :
    Option WidgetData :=
  match store with
  | none => none
  | some wd => some { wd with rotationIntervalSeconds := some seconds }

/-- Validation message shown by handleCustomIntervalSubmit (settings.tsx line 551). -/
def intervalValidationMsg : String := "Interval must be at least 5 seconds"

/-- Embeds handleCustomIntervalSubmit (src/app/(tabs)/settings.tsx lines 539-553) composed
with handleIntervalChange (lines 518-532): an already-parsed integer of at least 5 is
stored via updateRotationInterval; below 5 an Invalid alert is shown and no store
mutation happens. Returns the store afterwards and the rejection message, if any. -/
def handleCustomIntervalSubmit (store : Option WidgetData) (seconds : Int) :
    Option WidgetData × Option String :=
  if 5 ≤ seconds then (updateRotationInterval store seconds, none)
  else (store, some intervalValidationMsg)

/-- Classification of the settings screen's rejection message by the spec section 7
taxonomy. -/
def classifySettingsError (msg : String) : ErrKind :=
  if msg = intervalValidationMsg then .validationError else .unknown

/-- Embeds the rotation-interval read site (src/app/(tabs)/settings.tsx line 470):
widgetData?.rotationIntervalSeconds ?? 1800. -/
def readRotationInterval (store : Option WidgetData) : Int :=
  match store with
  | none => 1800
  | some wd => wd.rotationIntervalSeconds.getD 1800

/-- Embeds the local-photos merge of handleAddLocalPhotos (src/app.config.ts lines
571-581): with at least one newly copied photo, the committed list is the plain
concatenation of the existing photos and the new ones, the display mode is recomputed
from the combined length, and the result is committed via saveWidgetPhotos. -/
def handleAddLocalPhotosMerge (store : Option WidgetData) (newPhotos : List WidgetPhoto)
    (now : Int) : Option WidgetData :=
  if newPhotos.length > 0 then
    let existingPhotos :=
      match store with
      | some wd => wd.photos
      | none => []
    let allPhotos := existingPhotos ++ newPhotos
    let mode := if 1 < allPhotos.length then DisplayMode.slideshow else DisplayMode.single
    some (saveWidgetPhotos allPhotos mode none now)
  else store

/-- Uniqueness of photo ids within a photo set (spec section 3). -/
def uniqueIds (photos : List WidgetPhoto) : Prop :=
  (photos.map WidgetPhoto.id).Nodup

/-! Concrete fixtures used by witnesses and counterexamples. -/

/-- Sample photo a. -/
def pA : WidgetPhoto :=
  { id := "a.jpg", url := "widget-photos/a.jpg", localPath := some "widget-photos/a.jpg"
    baseUrl := none, width := 512, height := 512 }

/-- Sample photo b. -/
def pB : WidgetPhoto :=
  { id := "b.jpg", url := "widget-photos/b.jpg", localPath := some "widget-photos/b.jpg"
    baseUrl := none, width := 512, height := 512 }

/-- State holding exactly one photo, index 0. -/
def oneP : WidgetData :=
  { photos := [pA], currentIndex := 0, displayMode := .single, lastUpdated := 0
    rotationIntervalSeconds := none, albumId := none }

/-- State holding two photos in single mode, index 0. -/
def twoSingle : WidgetData :=
  { photos := [pA, pB], currentIndex := 0, displayMode := .single, lastUpdated := 0
    rotationIntervalSeconds := none, albumId := none }

/-- State holding two photos in slideshow mode, index 0. -/
def twoSlideshow : WidgetData :=
  { photos := [pA, pB], currentIndex := 0, displayMode := .slideshow, lastUpdated := 0
    rotationIntervalSeconds := none, albumId := none }

/-- State holding one photo with a persisted out-of-range index. -/
def oneOutOfRange : WidgetData :=
  { photos := [pA], currentIndex := 7, displayMode := .slideshow, lastUpdated := 0
    rotationIntervalSeconds := none, albumId := none }

/-! Claim C5 (corrected). -/

/-- Claim C5 counterexample: on a one-photo state, rotateToNextPhoto at a fresh timestamp
performs one durable write and the stored record changes (lastUpdated moves), refuting
the claim that no observably different persistence write is performed for length 1. -/
theorem rotateToNextPhoto_singleton_writes :
    (rotateToNextPhoto (some oneP) 1).writes = 1 ∧
    (rotateToNextPhoto (some oneP) 1).store ≠ some oneP := by
  decide

/-- Claim C5 amended: rotateToNextPhoto is a no-op (store unchanged, zero writes) only
when the photos list is empty; on a one-photo state with currentIndex 0 it leaves the
index at 0 but performs one durable write stamping lastUpdated; the widget-side
rotatePhoto is a full no-op (store unchanged, zero writes) whenever length is at most
one. -/
theorem rotate_len_le_one (wd : WidgetData) (now : Int) :
    (wd.photos = [] → rotateToNextPhoto (some wd) now = { store := some wd, writes := 0 }) ∧
    (wd.photos.length = 1 → wd.currentIndex = 0 →
      (rotateToNextPhoto (some wd) now).store =
        some { wd with currentIndex := 0, lastUpdated := now } ∧
      (rotateToNextPhoto (some wd) now).writes = 1) ∧
    (wd.photos.length ≤ 1 → rotatePhoto (some wd) now = { store := some wd, writes := 0 }) := by
  refine ⟨?_, ?_, ?_⟩
  · intro h
    simp [rotateToNextPhoto, h]
  · intro h1 h0
    simp [rotateToNextPhoto, h1, h0, updateCurrentPhotoIndex]
  · intro h
    simp [rotatePhoto, h]

/-- Claim C5 amended, witness at the one-photo state. -/
theorem rotate_len_le_one_witness :
    (rotateToNextPhoto (some oneP) 5).store =
      some { oneP with currentIndex := 0, lastUpdated := 5 } ∧
    (rotateToNextPhoto (some oneP) 5).writes = 1 ∧
    rotatePhoto (some oneP) 5 = { store := some oneP, writes := 0 } := by
  have h := rotate_len_le_one oneP 5
  exact ⟨(h.2.1 rfl rfl).1, (h.2.1 rfl rfl).2, h.2.2 (by decide)⟩

/-! Claim C6 (cyclic rotation). -/

/-- Casting fact: JavaScript remainder on nonnegative operands agrees with Nat mod. -/
theorem tmod_ofNat (a b : Nat) : (Int.ofNat a).tmod (Int.ofNat b) = Int.ofNat (a % b) :=
  rfl

/-- Stepping fact for rotateToNextPhoto on a nonempty state: one write, photos preserved,
index advanced by one modulo the length. -/
theorem rotateToNextPhoto_step (wd : WidgetData) (t : Int) (i : Nat)
    (hlt : i < wd.photos.length) (hci : wd.currentIndex = Int.ofNat i) :
    rotateToNextPhoto (some wd) t =
      { store := some { wd with currentIndex := Int.ofNat ((i + 1) % wd.photos.length),
                                lastUpdated := t },
        writes := 1 } := by
  have hne : ¬ wd.photos.length = 0 := by omega
  simp only [rotateToNextPhoto, hne, if_false, updateCurrentPhotoIndex, hci]
  have : (Int.ofNat i + 1).tmod (wd.photos.length : Int) = Int.ofNat ((i + 1) % wd.photos.length) := by
    have h1 : Int.ofNat i + 1 = Int.ofNat (i + 1) := rfl
    have h2 : (wd.photos.length : Int) = Int.ofNat wd.photos.length := rfl
    rw [h1, h2, tmod_ofNat]
  rw [this]

/-- Index evolution along a run of consecutive rotateToNextPhoto calls: with a nonempty
list and an in-range start, the run keeps the photos intact and lands at
(start + count) % length. -/
theorem advanceTimes_index (ts : List Int) :
    ∀ (wd : WidgetData) (i : Nat), i < wd.photos.length → wd.currentIndex = Int.ofNat i →
    ∃ wd2 : WidgetData, advanceTimes (some wd) ts = some wd2 ∧
      wd2.photos = wd.photos ∧
      wd2.currentIndex = Int.ofNat ((i + ts.length) % wd.photos.length) := by
  induction ts with
  | nil =>
      intro wd i hlt hci
      refine ⟨wd, rfl, rfl, ?_⟩
      rw [hci]
      simp [Nat.mod_eq_of_lt hlt]
  | cons t ts ih =>
      intro wd i hlt hci
      have hstep := rotateToNextPhoto_step wd t i hlt hci
      have hlen : 0 < wd.photos.length := by omega
      set wd1 : WidgetData :=
        { wd with currentIndex := Int.ofNat ((i + 1) % wd.photos.length),
                  lastUpdated := t } with hwd1
      have hlt1 : (i + 1) % wd.photos.length < wd1.photos.length := by
        simpa [hwd1] using Nat.mod_lt (i + 1) hlen
      have hci1 : wd1.currentIndex = Int.ofNat ((i + 1) % wd.photos.length) := rfl
      obtain ⟨wd2, h1, h2, h3⟩ := ih wd1 ((i + 1) % wd.photos.length) hlt1 hci1
      refine ⟨wd2, ?_, ?_, ?_⟩
      · show advanceTimes (rotateToNextPhoto (some wd) t).store ts = some wd2
        rw [hstep]
        exact h1
      · rw [h2]
      · rw [h3]
        have hplen : wd1.photos.length = wd.photos.length := rfl
        rw [hplen]
        have harith : ((i + 1) % wd.photos.length + ts.length) % wd.photos.length
            = (i + (t :: ts).length) % wd.photos.length := by
          rw [Nat.mod_add_mod]
          have hadd : i + 1 + ts.length = i + (t :: ts).length := by
            simp only [List.length_cons]
            omega
          rw [hadd]
        rw [harith]

/-- Claim C6: for every widget state with a non-empty photo list of length N and
currentIndex in [0, N), N consecutive rotateToNextPhoto calls (at arbitrary timestamps)
preserve the photo list and return currentIndex to its original value. -/
theorem rotate_cycle (wd : WidgetData) (ts : List Int)
    (hlo : 0 ≤ wd.currentIndex)
    (hhi : wd.currentIndex < (wd.photos.length : Int))
    (hts : ts.length = wd.photos.length) :
    ∃ wd2 : WidgetData, advanceTimes (some wd) ts = some wd2 ∧
      wd2.photos = wd.photos ∧ wd2.currentIndex = wd.currentIndex := by
  have hci : wd.currentIndex = Int.ofNat wd.currentIndex.toNat := by
    rw [Int.ofNat_eq_natCast]
    omega
  have hlt : wd.currentIndex.toNat < wd.photos.length := by omega
  obtain ⟨wd2, h1, h2, h3⟩ := advanceTimes_index ts wd wd.currentIndex.toNat hlt hci
  refine ⟨wd2, h1, h2, ?_⟩
  rw [h3, hts, Nat.add_mod_right, Nat.mod_eq_of_lt hlt, hci.symm]

/-- Claim C6 witness: a two-photo slideshow state rotated twice returns to index 0. -/
theorem rotate_cycle_witness :
    ∃ wd2 : WidgetData, advanceTimes (some twoSlideshow) [3, 7] = some wd2 ∧
      wd2.photos = twoSlideshow.photos ∧ wd2.currentIndex = twoSlideshow.currentIndex :=
  rotate_cycle twoSlideshow [3, 7] (by decide) (by decide) (by decide)

/-! Claim C10 (render totality). -/

/-- Claim C10: for every stored state with a non-empty photo list the render's photo
selection is total — photos[currentIndex] is chosen when the persisted index is in
range, photos[0] otherwise — and the render step neither throws nor falls back to the
empty placeholder, for any persisted currentIndex. -/
theorem render_total (wd : WidgetData) (hne : wd.photos ≠ []) :
    (∀ h : 0 ≤ wd.currentIndex ∧ wd.currentIndex.toNat < wd.photos.length,
      chooseCurrentPhoto wd = some (wd.photos.get ⟨wd.currentIndex.toNat, h.2⟩)) ∧
    (¬ (0 ≤ wd.currentIndex ∧ wd.currentIndex.toNat < wd.photos.length) →
      chooseCurrentPhoto wd = wd.photos.get? 0) ∧
    (∃ p, chooseCurrentPhoto wd = some p) ∧
    (∀ imageLoads : WidgetPhoto → Bool,
      renderWidgetForUpdate imageLoads (some wd) ≠ RenderOutput.emptyPlaceholder ∧
      renderWidgetForUpdate imageLoads (some wd) ≠ RenderOutput.crash) := by
  have hpos : 0 < wd.photos.length := List.length_pos.mpr hne
  have hin : ∀ h : 0 ≤ wd.currentIndex ∧ wd.currentIndex.toNat < wd.photos.length,
      chooseCurrentPhoto wd = some (wd.photos.get ⟨wd.currentIndex.toNat, h.2⟩) := by
    intro h
    have hj : jsIndex wd.photos wd.currentIndex =
        some (wd.photos.get ⟨wd.currentIndex.toNat, h.2⟩) := by
      simp only [jsIndex, if_pos h.1]
      exact List.get?_eq_get h.2
    simp only [chooseCurrentPhoto, hj]
  have hout : ¬ (0 ≤ wd.currentIndex ∧ wd.currentIndex.toNat < wd.photos.length) →
      chooseCurrentPhoto wd = wd.photos.get? 0 := by
    intro h
    have hj : jsIndex wd.photos wd.currentIndex = none := by
      by_cases hn : 0 ≤ wd.currentIndex
      · have hge : wd.photos.length ≤ wd.currentIndex.toNat := by
          rcases Nat.lt_or_ge wd.currentIndex.toNat wd.photos.length with hlt | hge
          · exact absurd ⟨hn, hlt⟩ h
          · exact hge
        simp only [jsIndex, if_pos hn]
        exact List.get?_eq_none.mpr hge
      · simp only [jsIndex, if_neg hn]
    simp only [chooseCurrentPhoto, hj]
  have htot : ∃ p, chooseCurrentPhoto wd = some p := by
    by_cases h : 0 ≤ wd.currentIndex ∧ wd.currentIndex.toNat < wd.photos.length
    · exact ⟨_, hin h⟩
    · refine ⟨wd.photos.get ⟨0, hpos⟩, ?_⟩
      rw [hout h]
      exact List.get?_eq_get hpos
  refine ⟨hin, hout, htot, ?_⟩
  intro imageLoads
  obtain ⟨p, hp⟩ := htot
  have hlen : ¬ wd.photos.length = 0 := by omega
  constructor
  · simp only [renderWidgetForUpdate, hlen, if_false, hp]
    by_cases hl : imageLoads p = true
    · simp [hl]
    · simp [hl]
  · simp only [renderWidgetForUpdate, hlen, if_false, hp]
    by_cases hl : imageLoads p = true
    · simp [hl]
    · simp [hl]

/-- Claim C10 witness: on a one-photo state whose persisted index is 7 (out of range),
the render selects photos[0]. -/
theorem render_total_witness : chooseCurrentPhoto oneOutOfRange = some pA := by
  have h := (render_total oneOutOfRange (by decide)).2.1 (by decide)
  rw [h]
  decide

/-! Claim C7 (trigger contract, corrected). -/

/-- Claim C7 counterexample: on a two-photo single-mode state, a foreground timed-task
firing performs zero advance calls (one render only) and a background-fetch firing
performs zero advance calls and zero renders, while a manual tap performs one advance
and one render — the three triggers do not share the claimed one-advance-one-render
contract regardless of display mode. -/
theorem trigger_contract_not_uniform :
    (widgetUpdateTask (some twoSingle) 1).2 = { advanceCalls := 0, renderCalls := 1 } ∧
    (backgroundFetchTask (some twoSingle) 1).2.1 =
      { advanceCalls := 0, renderCalls := 0 } ∧
    (widgetClickTrigger (some twoSingle) 1 "ROTATE_PHOTO").2 =
      { advanceCalls := 1, renderCalls := 1 } := by
  decide

/-- Claim C7 amended: per firing no trigger performs more than one advance call or one
re-render (no batching of missed firings); the manual tap always performs exactly one
advance call (a no-op internally when length ≤ 1) and exactly one re-render; the
foreground and background timed tasks perform their single advance call exactly when the
stored state is in slideshow mode with more than one photo (the foreground task still
re-renders on other non-empty states, the background task does nothing then). -/
theorem trigger_contract (store : Option WidgetData) (now : Int) (clickAction : String) :
    (widgetClickTrigger store now clickAction).2 =
      { advanceCalls := 1, renderCalls := 1 } ∧
    (widgetUpdateTask store now).2.advanceCalls ≤ 1 ∧
    (widgetUpdateTask store now).2.renderCalls ≤ 1 ∧
    (backgroundFetchTask store now).2.1.advanceCalls ≤ 1 ∧
    (backgroundFetchTask store now).2.1.renderCalls ≤ 1 ∧
    ((widgetUpdateTask store now).2.advanceCalls = 1 ↔
      ∃ wd, store = some wd ∧ wd.displayMode = .slideshow ∧ 1 < wd.photos.length) ∧
    ((backgroundFetchTask store now).2.1.advanceCalls = 1 ↔
      ∃ wd, store = some wd ∧ wd.displayMode = .slideshow ∧ 1 < wd.photos.length) := by
  have hclick : (widgetClickTrigger store now clickAction).2 =
      { advanceCalls := 1, renderCalls := 1 } := by
    by_cases h : clickAction = "ROTATE_PHOTO" <;> simp [widgetClickTrigger, h]
  refine ⟨hclick, ?_⟩
  match store with
  | none => simp [widgetUpdateTask, backgroundFetchTask]
  | some wd =>
      by_cases h0 : wd.photos.length = 0
      · have hns : ¬ (wd.displayMode = DisplayMode.slideshow ∧ 1 < wd.photos.length) := by
          intro hc
          omega
        simp only [widgetUpdateTask, backgroundFetchTask, h0, if_true]
        refine ⟨by simp, by simp, by simp, by simp, ?_, ?_⟩ <;>
          · simp only [Option.some.injEq]
            constructor
            · intro h
              exact absurd h (by simp)
            · rintro ⟨wd2, rfl, hm, hl⟩
              exact absurd ⟨hm, hl⟩ hns
      · by_cases hs : wd.displayMode = DisplayMode.slideshow ∧ 1 < wd.photos.length
        · simp only [widgetUpdateTask, backgroundFetchTask, h0, if_false, hs, if_true]
          refine ⟨by simp, by simp, by simp, by simp, ?_, ?_⟩ <;>
            · simp only [Option.some.injEq]
              exact ⟨fun _ => ⟨wd, rfl, hs⟩, fun _ => rfl⟩
        · simp only [widgetUpdateTask, backgroundFetchTask, h0, if_false, hs, if_true]
          refine ⟨by simp, by simp, by simp, by simp, ?_, ?_⟩ <;>
            · simp only [Option.some.injEq]
              constructor
              · intro h
                exact absurd h (by simp)
              · rintro ⟨wd2, hw, hm, hl⟩
                cases hw
                exact absurd ⟨hm, hl⟩ hs

/-! Claim C8 (interval floor). -/

/-- Claim C8: every interval below the floor of 5 is rejected with the validation
message (classified ValidationError) leaving the store — hence rotationIntervalSeconds —
unchanged, in particular 3 is; 5 is accepted, only the rotationIntervalSeconds field of
the record changes, and the new value is what a subsequent read of the rotation interval
returns. -/
theorem setInterval_floor (store : Option WidgetData) (wd : WidgetData) (s : Int)
    (hs : s < 5) :
    handleCustomIntervalSubmit store s = (store, some intervalValidationMsg) ∧
    classifySettingsError intervalValidationMsg = ErrKind.validationError ∧
    handleCustomIntervalSubmit store 3 = (store, some intervalValidationMsg) ∧
    handleCustomIntervalSubmit (some wd) 5 =
      (some { wd with rotationIntervalSeconds := some 5 }, none) ∧
    readRotationInterval (handleCustomIntervalSubmit (some wd) 5).1 = 5 := by
  have hns : ¬ (5 ≤ s) := by omega
  refine ⟨?_, ?_, ?_, ?_, ?_⟩
  · simp [handleCustomIntervalSubmit, hns]
  · simp [classifySettingsError]
  · simp [handleCustomIntervalSubmit]
  · simp [handleCustomIntervalSubmit, updateRotationInterval]
  · simp [handleCustomIntervalSubmit, updateRotationInterval, readRotationInterval]

/-- Claim C8 witness: rejection of 3 and acceptance of 5 on the one-photo state. -/
theorem setInterval_floor_witness :
    handleCustomIntervalSubmit (some oneP) 3 = (some oneP, some intervalValidationMsg) ∧
    readRotationInterval (handleCustomIntervalSubmit (some oneP) 5).1 = 5 := by
  have h := setInterval_floor (some oneP) oneP 3 (by decide)
  exact ⟨h.2.2.1, h.2.2.2.2⟩

/-! Claim C9 (id uniqueness across merge, corrected). -/

/-- Existing photo whose id collides with a newly added local photo's file name. -/
def pOld : WidgetPhoto :=
  { id := "a.jpg", url := "old-path/a.jpg", localPath := some "old-path/a.jpg"
    baseUrl := none, width := 512, height := 512 }

/-- State holding the existing photo pOld before the colliding merge. -/
def dupWD : WidgetData :=
  { photos := [pOld], currentIndex := 0, displayMode := .single, lastUpdated := 0
    rotationIntervalSeconds := none, albumId := none }

/-- Claim C9 counterexample: merging a new local photo whose id ("a.jpg") collides with
an existing photo's id commits a state holding two entries with the same id — the merge
keeps both, so the resulting WidgetState violates id uniqueness and no last-write-wins
dedup happens. -/
theorem merge_duplicate_ids :
    handleAddLocalPhotosMerge (some dupWD) [pA] 9 =
      some (saveWidgetPhotos [pOld, pA] DisplayMode.slideshow none 9) ∧
    pOld.id = pA.id ∧
    ¬ uniqueIds [pOld, pA] := by
  refine ⟨by decide, by decide, ?_⟩
  unfold uniqueIds
  decide

/-- Claim C9 amended: handleAddLocalPhotos commits the plain concatenation of the
existing photos and the new ones — for every id the number of entries carrying it in the
committed set is the sum of its counts on the two sides, so id-colliding entries are all
retained (the committed record merely resets currentIndex and recomputes the display
mode); only the shared cache file path, not the photo list, is last-write-wins. -/
theorem merge_keeps_both (wd : WidgetData) (newPhotos : List WidgetPhoto) (now : Int)
    (h : newPhotos ≠ []) (s : String) :
    (handleAddLocalPhotosMerge (some wd) newPhotos now).map
        (fun wd2 => (wd2.photos.countP (fun p => p.id == s))) =
      some (wd.photos.countP (fun p => p.id == s) +
        newPhotos.countP (fun p => p.id == s)) := by
  have hpos : 0 < newPhotos.length := List.length_pos.mpr h
  simp only [handleAddLocalPhotosMerge, if_pos hpos, saveWidgetPhotos, Option.map_some']
  rw [List.countP_append]

/-- Claim C9 amended, witness at the colliding merge: both entries with id "a.jpg" are
counted in the committed set. -/
theorem merge_keeps_both_witness :
    (handleAddLocalPhotosMerge (some dupWD) [pA] 9).map
        (fun wd2 => (wd2.photos.countP (fun p => p.id == "a.jpg"))) = some 2 := by
  have h := merge_keeps_both dupWD [pA] 9 (by decide) "a.jpg"
  rw [h]
  decide

/-! Claims C2 and C3 (poll loop). -/

/-- Behaviour of the poll loop when the session never reports readiness and never
throws: every allowed iteration polls once and sleeps once, and the post-loop code runs
with one cleanup call. -/
theorem pollAux_never_ready (status : Nat → Except String Bool)
    (hstat : ∀ k, status k = .ok false) :
    ∀ (rem calls slept : Nat), pollAux status calls slept rem =
      { statusCalls := calls + rem, sleptMs := slept + 5000 * rem
        reachedFetching := false, errorMsg := some pollTimeoutMsg, deleteCalls := 1 } := by
  intro rem
  induction rem with
  | zero => intro calls slept; simp [pollAux]
  | succ r ih =>
      intro calls slept
      rw [show pollAux status calls slept (r + 1) =
          pollAux status (calls + 1) (slept + 5000) r by
        simp only [pollAux, hstat calls]]
      rw [ih]
      have h1 : calls + 1 + r = calls + (r + 1) := by omega
      have h2 : slept + 5000 + 5000 * r = slept + 5000 * (r + 1) := by ring
      rw [h1, h2]

/-- Claim C2: when the remote session never reports selection readiness the polling step
performs exactly 60 getPickerSession calls, never reaches the fetching step, ends with
the post-loop error message — classified TimeoutError by the taxonomy — and invokes
deletePickerSession exactly once. -/
theorem poll_timeout (status : Nat → Except String Bool)
    (hstat : ∀ k, status k = .ok false) :
    (pollForSelection status).statusCalls = 60 ∧
    (pollForSelection status).reachedFetching = false ∧
    (pollForSelection status).errorMsg.map classifyPickerError =
      some ErrKind.timeoutError ∧
    (pollForSelection status).deleteCalls = 1 := by
  have h := pollAux_never_ready status hstat 60 0 0
  unfold pollForSelection
  rw [h]
  refine ⟨rfl, rfl, ?_, rfl⟩
  simp only [Option.map_some']
  unfold classifyPickerError pollTimeoutMsg
  decide

/-- Claim C2 witness at the constant never-ready collaborator. -/
theorem poll_timeout_witness :
    (pollForSelection (fun _ => Except.ok false)).statusCalls = 60 ∧
    (pollForSelection (fun _ => Except.ok false)).reachedFetching = false ∧
    (pollForSelection (fun _ => Except.ok false)).errorMsg.map classifyPickerError =
      some ErrKind.timeoutError ∧
    (pollForSelection (fun _ => Except.ok false)).deleteCalls = 1 :=
  poll_timeout (fun _ => Except.ok false) (fun _ => rfl)

/-- Behaviour of the poll loop when readiness first appears on the call made after m
unready calls, with m below the remaining-iteration budget: the loop polls m + 1 times,
sleeps m times, enters the fetching step and performs no cleanup of its own. -/
theorem pollAux_ready_at (status : Nat → Except String Bool) :
    ∀ (m rem calls slept : Nat), m < rem →
    (∀ j, j < m → status (calls + j) = .ok false) →
    status (calls + m) = .ok true →
    pollAux status calls slept rem =
      { statusCalls := calls + m + 1, sleptMs := slept + 5000 * m
        reachedFetching := true, errorMsg := none, deleteCalls := 0 } := by
  intro m
  induction m with
  | zero =>
      intro rem calls slept hm _ hready
      match rem, hm with
      | r + 1, _ =>
          have hc : status calls = .ok true := by simpa using hready
          simp [pollAux, hc]
  | succ n ih =>
      intro rem calls slept hm hfalse hready
      match rem, hm with
      | r + 1, hm =>
          have hc : status calls = .ok false := by
            simpa using hfalse 0 (by omega)
          rw [show pollAux status calls slept (r + 1) =
              pollAux status (calls + 1) (slept + 5000) r by
            simp only [pollAux, hc]]
          have hfalse2 : ∀ j, j < n → status (calls + 1 + j) = .ok false := by
            intro j hj
            have := hfalse (j + 1) (by omega)
            rwa [show calls + (j + 1) = calls + 1 + j by omega] at this
          have hready2 : status (calls + 1 + n) = .ok true := by
            rwa [show calls + (n + 1) = calls + 1 + n by omega] at hready
          rw [ih r (calls + 1) (slept + 5000) (by omega) hfalse2 hready2]
          have h1 : calls + 1 + n + 1 = calls + (n + 1) + 1 := by omega
          have h2 : slept + 5000 + 5000 * n = slept + 5000 * (n + 1) := by ring
          rw [h1, h2]

/-- Claim C3: if the session first reports readiness on poll attempt k with 1 ≤ k ≤ 60,
the polling step enters the fetching step after exactly k getPickerSession calls and
exactly (k − 1) × 5000 ms — that is, (k − 1) × 5 s — of sleep, sleeping only after
unready attempts, and performs no cleanup call of its own. -/
theorem poll_ready_at_k (status : Nat → Except String Bool) (k : Nat)
    (hk1 : 1 ≤ k) (hk60 : k ≤ 60)
    (hfalse : ∀ j, j < k - 1 → status j = .ok false)
    (hready : status (k - 1) = .ok true) :
    (pollForSelection status).reachedFetching = true ∧
    (pollForSelection status).statusCalls = k ∧
    (pollForSelection status).sleptMs = (k - 1) * 5000 ∧
    (pollForSelection status).deleteCalls = 0 := by
  have h := pollAux_ready_at status (k - 1) 60 0 0 (by omega)
    (by intro j hj; simpa using hfalse j hj) (by simpa using hready)
  unfold pollForSelection
  rw [h]
  refine ⟨rfl, by simp; omega, by simp; ring, rfl⟩

/-- Claim C3 witness: readiness on attempt 3 gives three calls and 10000 ms of sleep. -/
theorem poll_ready_at_k_witness :
    (pollForSelection (fun j => if j < 2 then Except.ok false else Except.ok true)).reachedFetching = true ∧
    (pollForSelection (fun j => if j < 2 then Except.ok false else Except.ok true)).statusCalls = 3 ∧
    (pollForSelection (fun j => if j < 2 then Except.ok false else Except.ok true)).sleptMs = 10000 ∧
    (pollForSelection (fun j => if j < 2 then Except.ok false else Except.ok true)).deleteCalls = 0 := by
  have h := poll_ready_at_k (fun j => if j < 2 then Except.ok false else Except.ok true)
    3 (by omega) (by omega)
    (by intro j hj; simp only []; rw [if_pos (by omega)])
    (by simp only []; rw [if_neg (by omega)])
  simpa using h

/-! Claim C1 (download batch). -/

/-- Every selected item is attempted by the download loop, failures included. -/
theorem downloadRun_attempts (ok : MediaItem → Bool) (items : List MediaItem) :
    (downloadRun ok items).2 = items.length := by
  induction items with
  | nil => rfl
  | cons p rest ih =>
      by_cases h : ok p = true <;> simp [downloadRun, h, ih]

/-- The download loop pushes exactly the successful items, in their original order. -/
theorem downloadRun_eq_filter (ok : MediaItem → Bool) (items : List MediaItem) :
    (downloadRun ok items).1 = (items.filter ok).map mkWidgetPhoto := by
  induction items with
  | nil => rfl
  | cons p rest ih =>
      by_cases h : ok p = true <;> simp [downloadRun, List.filter_cons, h, ih]

/-- Claim C1: with the media-item list fetched successfully and non-empty (and with
working save and cleanup collaborators), every item is attempted regardless of
individual failures, the pushed set is exactly the successes in original order; when no
item succeeds the screen ends in the error state whose message classifies as
EmptySelectionError, saveWidgetPhotos is never invoked and the previous widget store is
left unchanged; when at least one item succeeds the screen ends done with exactly the
successes committed. -/
theorem download_batch_behaviour (env : FetchEnv) (items : List MediaItem)
    (hm : env.mediaItems = .ok items) (hne : items ≠ [])
    (hdel : env.deleteOk = true) (hsave : env.saveOk = true) :
    (downloadRun env.downloadOk items).2 = items.length ∧
    (downloadRun env.downloadOk items).1 =
      (items.filter env.downloadOk).map mkWidgetPhoto ∧
    (items.filter env.downloadOk = [] →
      (fetchSelectedPhotos env).finalState = PickerState.error ∧
      (fetchSelectedPhotos env).errorMsg.map classifyPickerError =
        some ErrKind.emptySelectionError ∧
      (fetchSelectedPhotos env).saveCalls = 0 ∧
      ∀ (prev : Option WidgetData) (mode : DisplayMode) (now : Int),
        storeAfterFetch prev env mode now = prev) ∧
    (items.filter env.downloadOk ≠ [] →
      (fetchSelectedPhotos env).finalState = PickerState.done ∧
      (fetchSelectedPhotos env).committed =
        some ((items.filter env.downloadOk).map mkWidgetPhoto)) := by
  have hfil := downloadRun_eq_filter env.downloadOk items
  have hpos : items.length > 0 := List.length_pos.mpr hne
  refine ⟨downloadRun_attempts env.downloadOk items, hfil, ?_, ?_⟩
  · intro hempty
    have hwp : (downloadRun env.downloadOk items).1 = [] := by
      rw [hfil, hempty]
      rfl
    have hout : fetchSelectedPhotos env =
        { finalState := .error, errorMsg := some "Failed to download photos"
          saveCalls := 0, committed := none, deleteCalls := 1 } := by
      simp [fetchSelectedPhotos, hm, hpos, hwp, hdel]
    refine ⟨by rw [hout], by rw [hout]; decide, by rw [hout], ?_⟩
    intro prev mode now
    simp [storeAfterFetch, hout]
  · intro hne2
    have hex : ∃ x ∈ items, env.downloadOk x = true := by
      rcases hfpos : items.filter env.downloadOk with _ | ⟨a, rest⟩
      · exact absurd hfpos hne2
      · have ha : a ∈ items.filter env.downloadOk := by
          rw [hfpos]
          exact List.mem_cons_self a rest
        exact ⟨a, (List.mem_filter.mp ha).1, (List.mem_filter.mp ha).2⟩
    have hout : fetchSelectedPhotos env =
        { finalState := .done, errorMsg := none, saveCalls := 1
          committed := some ((items.filter env.downloadOk).map mkWidgetPhoto)
          deleteCalls := 1 } := by
      simp [fetchSelectedPhotos, hm, hpos, hfil, hsave, hdel, hex]
    exact ⟨by rw [hout], by rw [hout]⟩

/-- Five selected items. -/
def items5 : List MediaItem :=
  [⟨"m1", "b1"⟩, ⟨"m2", "b2"⟩, ⟨"m3", "b3"⟩, ⟨"m4", "b4"⟩, ⟨"m5", "b5"⟩]

/-- Fetch-phase environment where all five downloads fail. -/
def envAllFail : FetchEnv :=
  { mediaItems := .ok items5, downloadOk := fun _ => false
    saveOk := true, saveErrMsg := "save failed"
    deleteOk := true, deleteErrMsg := "delete failed" }

/-- Claim C1 witness: with five items all of whose downloads fail, all five are
attempted, the screen ends in error classified EmptySelectionError, no save happens and
the previous store survives. -/
theorem download_batch_behaviour_witness :
    (downloadRun envAllFail.downloadOk items5).2 = items5.length ∧
    (fetchSelectedPhotos envAllFail).finalState = PickerState.error ∧
    (fetchSelectedPhotos envAllFail).errorMsg.map classifyPickerError =
      some ErrKind.emptySelectionError ∧
    (fetchSelectedPhotos envAllFail).saveCalls = 0 ∧
    storeAfterFetch (some oneP) envAllFail DisplayMode.single 3 = some oneP := by
  have h := download_batch_behaviour envAllFail items5 rfl (by decide) rfl rfl
  have hz : items5.filter envAllFail.downloadOk = [] := rfl
  have he := h.2.2.1 hz
  exact ⟨h.1, he.1, he.2.1, he.2.2.1, he.2.2.2 (some oneP) DisplayMode.single 3⟩

/-! Claim C4 (session cleanup, corrected). -/

/-- Workflow environment where readiness is reported at once and the media-item fetch
throws. -/
def envFetchThrow : WorkflowEnv :=
  { status := fun _ => Except.ok true
    fetch :=
      { mediaItems := Except.error "Network request failed"
        downloadOk := fun _ => true
        saveOk := true, saveErrMsg := "save failed"
        deleteOk := true, deleteErrMsg := "delete failed" } }

/-- Claim C4 counterexample: when readiness is observed immediately and
fetchPickerMediaItems throws, the workflow ends in the error state with zero
deletePickerSession invocations — the cleanup call (src/app/oauth.tsx line 281) sits
inside the try block and is skipped by the throw, so this error path never attempts
remote deletion of the created session. -/
theorem cleanup_skipped_on_fetch_throw :
    (runAfterPickerOpen envFetchThrow).finalState = PickerState.error ∧
    (runAfterPickerOpen envFetchThrow).deleteCalls = 0 := by
  decide

/-- Cleanup accounting of the poll loop: entering the fetching step performs no cleanup
of its own, while ending in the post-loop code performs exactly one cleanup call. -/
theorem pollAux_deletes (status : Nat → Except String Bool) :
    ∀ (rem calls slept : Nat),
    ((pollAux status calls slept rem).reachedFetching = true →
      (pollAux status calls slept rem).deleteCalls = 0) ∧
    ((pollAux status calls slept rem).reachedFetching = false →
      (pollAux status calls slept rem).deleteCalls = 1) := by
  intro rem
  induction rem with
  | zero =>
      intro calls slept
      exact ⟨fun h => by simp [pollAux] at h, fun _ => rfl⟩
  | succ r ih =>
      intro calls slept
      simp only [pollAux]
      match hs : status calls with
      | .error e => exact ⟨fun h => by simp at h, fun _ => rfl⟩
      | .ok true => exact ⟨fun _ => rfl, fun h => by simp at h⟩
      | .ok false => exact ih (calls + 1) (slept + 5000)

/-- Cleanup accounting of the fetch phase when the media-item fetch resolves and the
durable replace resolves: every error-ending outcome carries exactly one
deletePickerSession invocation. -/
theorem fetch_error_deletes (env : FetchEnv) (items : List MediaItem)
    (hm : env.mediaItems = .ok items) (hsave : env.saveOk = true) :
    (fetchSelectedPhotos env).finalState = PickerState.error →
    (fetchSelectedPhotos env).deleteCalls = 1 := by
  intro herr
  by_cases hpos : items.length > 0
  · by_cases hwp : (downloadRun env.downloadOk items).1.length > 0
    · by_cases hdel1 : env.deleteOk = true
      · have hout : fetchSelectedPhotos env =
            { finalState := .done, errorMsg := none, saveCalls := 1
              committed := some (downloadRun env.downloadOk items).1
              deleteCalls := 1 } := by
          simp [fetchSelectedPhotos, hm, hpos, hwp, hsave, hdel1]
        rw [hout] at herr
        exact absurd herr (by simp)
      · have hdf : env.deleteOk = false := by
          revert hdel1
          cases env.deleteOk <;> simp
        have hout : fetchSelectedPhotos env =
            { finalState := .error, errorMsg := some env.deleteErrMsg, saveCalls := 1
              committed := some (downloadRun env.downloadOk items).1
              deleteCalls := 1 } := by
          simp [fetchSelectedPhotos, hm, hpos, hwp, hsave, hdf]
        rw [hout]
    · rcases hde : env.deleteOk with _ | _
      · have hout : fetchSelectedPhotos env =
            { finalState := .error, errorMsg := some env.deleteErrMsg
              saveCalls := 0, committed := none, deleteCalls := 1 } := by
          simp [fetchSelectedPhotos, hm, hpos, hwp, hde]
        rw [hout]
      · have hout : fetchSelectedPhotos env =
            { finalState := .error, errorMsg := some "Failed to download photos"
              saveCalls := 0, committed := none, deleteCalls := 1 } := by
          simp [fetchSelectedPhotos, hm, hpos, hwp, hde]
        rw [hout]
  · rcases hde : env.deleteOk with _ | _
    · have hout : fetchSelectedPhotos env =
          { finalState := .error, errorMsg := some env.deleteErrMsg
            saveCalls := 0, committed := none, deleteCalls := 1 } := by
        simp [fetchSelectedPhotos, hm, hpos, hde]
      rw [hout]
    · have hout : fetchSelectedPhotos env =
          { finalState := .error, errorMsg := some "No photos were selected"
            saveCalls := 0, committed := none, deleteCalls := 1 } := by
        simp [fetchSelectedPhotos, hm, hpos, hde]
      rw [hout]

/-- Claim C4 amended: after a session was created, every path of the workflow that ends
in the terminal error state still attempts remote deletion of the session exactly once —
except the paths on which an exception is thrown inside the fetch phase (a
media-item-fetch throw, or a durable-replace throw), where the cleanup call is skipped;
the theorem states the surviving guarantee under the proviso that the media-item fetch
and the durable replace resolve. -/
theorem cleanup_on_error_paths (env : WorkflowEnv) (items : List MediaItem)
    (hm : env.fetch.mediaItems = .ok items) (hsave : env.fetch.saveOk = true) :
    (runAfterPickerOpen env).finalState = PickerState.error →
    (runAfterPickerOpen env).deleteCalls = 1 := by
  unfold runAfterPickerOpen
  by_cases hr : (pollForSelection env.status).reachedFetching = true
  · simp only [hr, if_true]
    intro herr
    have h1 : (pollForSelection env.status).deleteCalls = 0 :=
      (pollAux_deletes env.status 60 0 0).1 hr
    have h2 := fetch_error_deletes env.fetch items hm hsave herr
    simp [h1, h2]
  · have hb : (pollForSelection env.status).reachedFetching = false := by
      revert hr
      cases (pollForSelection env.status).reachedFetching <;> simp
    simp only [hb, Bool.false_eq_true, if_false]
    intro _
    exact (pollAux_deletes env.status 60 0 0).2 hb

/-- Workflow environment where readiness is immediate and the user selected nothing. -/
def envEmptySelection : WorkflowEnv :=
  { status := fun _ => Except.ok true
    fetch :=
      { mediaItems := Except.ok []
        downloadOk := fun _ => true
        saveOk := true, saveErrMsg := "save failed"
        deleteOk := true, deleteErrMsg := "delete failed" } }

/-- Claim C4 amended, witness: the empty-selection error path performs exactly one
cleanup call. -/
theorem cleanup_on_error_paths_witness :
    (runAfterPickerOpen envEmptySelection).deleteCalls = 1 :=
  cleanup_on_error_paths envEmptySelection [] rfl rfl (by decide)

end PhotosWidget
